import Mathlib

/-!
Verification of the emission-estimation engine of the GHG lagoon mini-demo
(`src/app.py`).  The engine is three pure functions over static tables:

* `predict_methane_ft3` — headline methane volume for (herd, location, mode);
* `climate_scenarios` — the same herd under each climate multiplier;
* the derived-metrics block (kWh, CO2-eq kg, car-year equivalents) inlined in
  the presentation code at `src/app.py:142-150`, embedded here as
  `derive_metrics`.

Python numbers are modelled as exact rationals (`ℚ`): every quantity the
claims touch is produced by `+ * /` on small decimal constants and integers,
so exact arithmetic is faithful for them.  A Python `dict` is modelled as an
insertion-ordered association list with `dictGet` lookup; a failed lookup
(`KeyError`) is the `Except.error` branch.
-/

/-- Python `KeyError`: the only exception the engine can raise
(`LOCATION_FACTORS[location]` on a missing key). -/
inductive PyError where
  | keyError (key : String)
deriving DecidableEq, Repr

/-- Lookup in a Python dict modelled as an association list
(first binding of the key wins; `none` is a `KeyError`). -/
def dictGet {α : Type} (d : List (String × α)) (k : String) : Option α :=
  match d with
  | [] => none
  | (key, v) :: rest => if key = k then some v else dictGet rest k

/-- `LOCATION_FACTORS` (src/app.py:6-10): per location, its climate class and
ft³ CH4 per cow per day, in the dict's insertion order. -/
def LOCATION_FACTORS : List (String × String × ℚ) :=
  [("Pullman", ("Cold", 25)),
   ("Lynden", ("Mild", 30)),
   ("Bakersfield", ("Warm", 37))]

/-- `CLIMATE_MULTIPLIER` (src/app.py:13-17), in the dict's insertion order. -/
def CLIMATE_MULTIPLIER : List (String × ℚ) :=
  [("Cold", 7/10), ("Mild", 1), ("Warm", 13/10)]

/-- `ELECTRICITY_PER_FT3 = 0.1` (src/app.py:20). -/
def ELECTRICITY_PER_FT3 : ℚ := 1/10

/-- `CO2EQ_PER_FT3_KG = 0.52` (src/app.py:21). -/
def CO2EQ_PER_FT3_KG : ℚ := 52/100

/-- `CAR_CO2_PER_YEAR_KG = 4600` (src/app.py:22). -/
def CAR_CO2_PER_YEAR_KG : ℚ := 4600

/-- `predict_methane_ft3` (src/app.py:25-37).  The dict access on an unknown
location raises `KeyError`; the `if/elif/else` chain sends every mode other
than `"day"` and `"month"` to the `else` (365) branch. -/
def predict_methane_ft3 (cows : ℕ) (location : String) (mode : String) :
    Except PyError ℚ :=
  match dictGet LOCATION_FACTORS location with
  | none => Except.error (PyError.keyError location)
  | some entry =>
    let base_ft3_per_cow_day := entry.2
    let daily := base_ft3_per_cow_day * (cows : ℚ)
    let factor : ℚ := if mode = "day" then 1 else if mode = "month" then 30 else 365
    Except.ok (daily * factor)

/-- `climate_scenarios` (src/app.py:40-56): iterate `CLIMATE_MULTIPLIER` in
insertion order, producing the result dict as an ordered association list.
The mode chain is duplicated from the source, including its `else` → 365
fall-through. -/
def climate_scenarios (cows : ℕ) (base_location : String) (mode : String) :
    Except PyError (List (String × ℚ)) :=
  match dictGet LOCATION_FACTORS base_location with
  | none => Except.error (PyError.keyError base_location)
  | some entry =>
    let base_ft3_per_cow_day := entry.2
    Except.ok (CLIMATE_MULTIPLIER.map (fun cm =>
      let daily := base_ft3_per_cow_day * cm.2 * (cows : ℚ)
      let factor : ℚ := if mode = "day" then 1 else if mode = "month" then 30 else 365
      (cm.1, daily * factor)))

/-- The three derived figures computed at src/app.py:142-150. -/
structure DerivedMetrics where
  kwh : ℚ
  co2eq_kg : ℚ
  car_equiv : ℚ
deriving DecidableEq, Repr

/-- The derived-metrics block (src/app.py:142-150): kWh and CO2-eq scale the
methane volume; `car_equiv` divides directly for `"year"`, multiplies the
CO2 figure by 12 for `"month"`, and by 365 in the remaining (`"day"`) branch. -/
def derive_metrics (methane_ft3 : ℚ) (mode : String) : DerivedMetrics :=
  let kwh := methane_ft3 * ELECTRICITY_PER_FT3
  let co2eq_kg := methane_ft3 * CO2EQ_PER_FT3_KG
  let car_equiv :=
    if mode = "year" then co2eq_kg / CAR_CO2_PER_YEAR_KG
    else if mode = "month" then (co2eq_kg * 12) / CAR_CO2_PER_YEAR_KG
    else (co2eq_kg * 365) / CAR_CO2_PER_YEAR_KG
  ⟨kwh, co2eq_kg, car_equiv⟩

/-- The three recognized horizon tokens (src/app.py:119). -/
def validMode (mode : String) : Prop :=
  mode = "day" ∨ mode = "month" ∨ mode = "year"

instance (mode : String) : Decidable (validMode mode) := by
  unfold validMode; infer_instance

/-- Characterization of `predict_methane_ft3` on a catalog location:
the dict entry's rate times the herd times the mode factor. -/
theorem predict_ok {loc : String} {p : String × ℚ}
    (h : dictGet LOCATION_FACTORS loc = some p) (cows : ℕ) (mode : String) :
    predict_methane_ft3 cows loc mode =
      Except.ok (p.2 * (cows : ℚ) *
        (if mode = "day" then 1 else if mode = "month" then 30 else 365)) := by
  unfold predict_methane_ft3
  rw [h]

/-- `predict_methane_ft3` on a non-catalog location is the `KeyError`. -/
theorem predict_err {loc : String} (h : dictGet LOCATION_FACTORS loc = none)
    (cows : ℕ) (mode : String) :
    predict_methane_ft3 cows loc mode = Except.error (PyError.keyError loc) := by
  unfold predict_methane_ft3
  rw [h]

/-- Characterization of `climate_scenarios` on a catalog location. -/
theorem scenarios_ok {loc : String} {p : String × ℚ}
    (h : dictGet LOCATION_FACTORS loc = some p) (cows : ℕ) (mode : String) :
    climate_scenarios cows loc mode =
      Except.ok (CLIMATE_MULTIPLIER.map (fun cm =>
        (cm.1, p.2 * cm.2 * (cows : ℚ) *
          (if mode = "day" then 1 else if mode = "month" then 30 else 365)))) := by
  unfold climate_scenarios
  rw [h]

/-- `climate_scenarios` on a non-catalog location is the `KeyError`. -/
theorem scenarios_err {loc : String} (h : dictGet LOCATION_FACTORS loc = none)
    (cows : ℕ) (mode : String) :
    climate_scenarios cows loc mode = Except.error (PyError.keyError loc) := by
  unfold climate_scenarios
  rw [h]

/-- Every per-cow daily rate in the catalog is strictly positive. -/
theorem location_rate_pos {loc : String} {p : String × ℚ}
    (h : dictGet LOCATION_FACTORS loc = some p) : 0 < p.2 := by
  simp only [LOCATION_FACTORS, dictGet] at h
  split_ifs at h <;> simp_all
  all_goals subst h
  all_goals norm_num

/-- The day-count factor of the mode chain is strictly positive for every
mode string (1, 30 or 365). -/
theorem mode_factor_pos (mode : String) :
    (0 : ℚ) < (if mode = "day" then 1 else if mode = "month" then 30 else 365) := by
  split_ifs <;> norm_num

/-- C1 counterexample: an unrecognized horizon token ("banana") does not fail
at all — both the predictor and the scenario projector return ordinary values
(those of the year branch) — refuting the claim that a horizon token outside
the three recognized modes fails with `InvalidHorizonError`. -/
theorem c1_counterexample :
    predict_methane_ft3 500 "Pullman" "banana" = Except.ok 4562500 ∧
    climate_scenarios 1000 "Lynden" "banana" =
      Except.ok [("Cold", 7665000), ("Mild", 10950000), ("Warm", 14235000)] := by
  constructor
  · simp [predict_methane_ft3, dictGet, LOCATION_FACTORS] <;> norm_num
  · simp [climate_scenarios, dictGet, LOCATION_FACTORS, CLIMATE_MULTIPLIER] <;> norm_num

/-- C1 (amended): a location outside the catalog makes both the predictor and
the scenario projector fail, but with the dict lookup `KeyError`, not a typed
`UnknownLocationError`; and there is no `InvalidHorizonError`: a horizon token
other than "day" and "month" never fails, it is silently treated as "year". -/
theorem c1_amended_validation (cows : ℕ) (loc mode : String) :
    (dictGet LOCATION_FACTORS loc = none →
      predict_methane_ft3 cows loc mode = Except.error (PyError.keyError loc) ∧
      climate_scenarios cows loc mode = Except.error (PyError.keyError loc)) ∧
    (mode ≠ "day" → mode ≠ "month" →
      predict_methane_ft3 cows loc mode = predict_methane_ft3 cows loc "year") := by
  constructor
  · intro h
    exact ⟨predict_err h cows mode, scenarios_err h cows mode⟩
  · intro hd hm
    cases hfind : dictGet LOCATION_FACTORS loc with
    | none => rw [predict_err hfind, predict_err hfind]
    | some p => rw [predict_ok hfind, predict_ok hfind]; simp [hd, hm]

theorem c1_amended_validation_witness :
    predict_methane_ft3 7 "Mars" "day" = Except.error (PyError.keyError "Mars") ∧
    predict_methane_ft3 7 "Pullman" "banana" = predict_methane_ft3 7 "Pullman" "year" :=
  ⟨((c1_amended_validation 7 "Mars" "day").1 (by simp [dictGet, LOCATION_FACTORS])).1,
   (c1_amended_validation 7 "Pullman" "banana").2 (by decide) (by decide)⟩

/-- C2 counterexample: for herd 1000 at Lynden, the car-year figure derived
from the Month-horizon methane volume (900,000 ft³) differs from the one
derived from the Year-horizon volume (10,950,000 ft³): the Month path
annualizes by 30 × 12 = 360 days against the Year path's 365. -/
theorem c2_counterexample :
    predict_methane_ft3 1000 "Lynden" "month" = Except.ok 900000 ∧
    predict_methane_ft3 1000 "Lynden" "year" = Except.ok 10950000 ∧
    (derive_metrics 900000 "month").car_equiv ≠
      (derive_metrics 10950000 "year").car_equiv := by
  refine ⟨?_, ?_, ?_⟩
  · simp [predict_methane_ft3, dictGet, LOCATION_FACTORS] <;> norm_num
  · simp [predict_methane_ft3, dictGet, LOCATION_FACTORS] <;> norm_num
  · simp [derive_metrics, CO2EQ_PER_FT3_KG, CAR_CO2_PER_YEAR_KG] <;> norm_num

/-- C2 (amended): annualized car-year equivalents agree between the Year and
Day horizons (both amount to daily CO2 × 365 / 4600), but not with Month: the
Month-derived figure is 360/365 of the Year-derived one — strictly smaller for
every positive herd at a catalog location. -/
theorem c2_amended_car_equiv (cows : ℕ) (loc : String) (vd vm vy : ℚ)
    (hpos : 0 < cows)
    (hd : predict_methane_ft3 cows loc "day" = Except.ok vd)
    (hm : predict_methane_ft3 cows loc "month" = Except.ok vm)
    (hy : predict_methane_ft3 cows loc "year" = Except.ok vy) :
    (derive_metrics vy "year").car_equiv = (derive_metrics vd "day").car_equiv ∧
    (derive_metrics vm "month").car_equiv =
      360 / 365 * (derive_metrics vy "year").car_equiv ∧
    (derive_metrics vm "month").car_equiv < (derive_metrics vy "year").car_equiv := by
  cases hfind : dictGet LOCATION_FACTORS loc with
  | none => rw [predict_err hfind] at hd; exact absurd hd (by simp)
  | some p =>
    rw [predict_ok hfind] at hd hm hy
    simp at hd hm hy
    subst hd; subst hm; subst hy
    have hrate := location_rate_pos hfind
    have hcows : (0 : ℚ) < (cows : ℚ) := by exact_mod_cast hpos
    simp [derive_metrics, CO2EQ_PER_FT3_KG, CAR_CO2_PER_YEAR_KG]
    refine ⟨by ring, by ring, ?_⟩
    nlinarith [mul_pos hrate hcows]

theorem c2_amended_car_equiv_witness :
    (derive_metrics 10950000 "year").car_equiv =
      (derive_metrics 30000 "day").car_equiv :=
  (c2_amended_car_equiv 1000 "Lynden" 30000 900000 10950000 (by norm_num)
    (by simp [predict_methane_ft3, dictGet, LOCATION_FACTORS] <;> norm_num)
    (by simp [predict_methane_ft3, dictGet, LOCATION_FACTORS] <;> norm_num)
    (by simp [predict_methane_ft3, dictGet, LOCATION_FACTORS] <;> norm_num)).1

/-- C3: for every methane volume and mode, the derived metrics are
kWh = v × 0.1, CO2-eq = v × 0.52, and the car-year figure divides the CO2
figure by 4600 directly for "year", after × 12 for "month", after × 365 for
"day". -/
theorem c3_derived_metrics (v : ℚ) (mode : String) :
    (derive_metrics v mode).kwh = v * ELECTRICITY_PER_FT3 ∧
    (derive_metrics v mode).co2eq_kg = v * CO2EQ_PER_FT3_KG ∧
    ELECTRICITY_PER_FT3 = 1 / 10 ∧
    CO2EQ_PER_FT3_KG = 52 / 100 ∧
    CAR_CO2_PER_YEAR_KG = 4600 ∧
    (derive_metrics v "year").car_equiv =
      v * CO2EQ_PER_FT3_KG / CAR_CO2_PER_YEAR_KG ∧
    (derive_metrics v "month").car_equiv =
      v * CO2EQ_PER_FT3_KG * 12 / CAR_CO2_PER_YEAR_KG ∧
    (derive_metrics v "day").car_equiv =
      v * CO2EQ_PER_FT3_KG * 365 / CAR_CO2_PER_YEAR_KG := by
  refine ⟨rfl, rfl, rfl, rfl, rfl, ?_, ?_, ?_⟩ <;> simp [derive_metrics]

/-- C4: on a positive herd, catalog location and recognized horizon the
predictor returns exactly rate × herd × day-count with no rounding, and the
spec's two example figures hold. -/
theorem c4_predict_formula (cows : ℕ) (loc mode : String) (p : String × ℚ)
    (hpos : 0 < cows) (hloc : dictGet LOCATION_FACTORS loc = some p)
    (hmode : validMode mode) :
    predict_methane_ft3 cows loc mode =
      Except.ok (p.2 * (cows : ℚ) *
        (if mode = "day" then 1 else if mode = "month" then 30 else 365)) ∧
    predict_methane_ft3 500 "Pullman" "year" = Except.ok (25 * 500 * 365) ∧
    predict_methane_ft3 500 "Pullman" "year" = Except.ok 4562500 ∧
    predict_methane_ft3 1000 "Lynden" "day" = Except.ok 30000 := by
  refine ⟨predict_ok hloc cows mode, ?_, ?_, ?_⟩ <;>
    simp [predict_methane_ft3, dictGet, LOCATION_FACTORS] <;> norm_num

theorem c4_predict_formula_witness :
    predict_methane_ft3 500 "Pullman" "year" =
      Except.ok (25 * (500 : ℚ) *
        (if "year" = "day" then 1 else if "year" = "month" then 30 else 365)) :=
  (c4_predict_formula 500 "Pullman" "year" ("Cold", 25) (by norm_num)
    (by simp [dictGet, LOCATION_FACTORS]) (by decide)).1

/-- C5: for a positive herd at a catalog location, the year prediction is
exactly 365 times the day prediction and the month prediction exactly 30
times the day prediction. -/
theorem c5_horizon_consistency (cows : ℕ) (loc : String) (vd : ℚ)
    (hpos : 0 < cows)
    (hd : predict_methane_ft3 cows loc "day" = Except.ok vd) :
    predict_methane_ft3 cows loc "year" = Except.ok (vd * 365) ∧
    predict_methane_ft3 cows loc "month" = Except.ok (vd * 30) := by
  cases hfind : dictGet LOCATION_FACTORS loc with
  | none => rw [predict_err hfind] at hd; exact absurd hd (by simp)
  | some p =>
    rw [predict_ok hfind] at hd
    simp at hd
    rw [predict_ok hfind, predict_ok hfind]
    subst hd
    constructor <;> simp

theorem c5_horizon_consistency_witness :
    predict_methane_ft3 1000 "Lynden" "year" = Except.ok (30000 * 365) ∧
    predict_methane_ft3 1000 "Lynden" "month" = Except.ok (30000 * 30) :=
  c5_horizon_consistency 1000 "Lynden" 30000 (by norm_num)
    (by simp [predict_methane_ft3, dictGet, LOCATION_FACTORS] <;> norm_num)

/-- C6: the scenario projector returns exactly the three climate classes in
the fixed order Cold, Mild, Warm; its Mild entry is the headline predict
value (multiplier 1.0 on the base rate); and the spec's Lynden/day example
figures hold. -/
theorem c6_scenario_ordering (cows : ℕ) (loc mode : String) (l : List (String × ℚ))
    (hpos : 0 < cows) (hmode : validMode mode)
    (hl : climate_scenarios cows loc mode = Except.ok l) :
    List.map Prod.fst l = ["Cold", "Mild", "Warm"] ∧
    (∀ v : ℚ, predict_methane_ft3 cows loc mode = Except.ok v →
      dictGet l "Mild" = some v) ∧
    climate_scenarios 1000 "Lynden" "day" =
      Except.ok [("Cold", 21000), ("Mild", 30000), ("Warm", 39000)] := by
  cases hfind : dictGet LOCATION_FACTORS loc with
  | none => rw [scenarios_err hfind] at hl; exact absurd hl (by simp)
  | some p =>
    rw [scenarios_ok hfind] at hl
    simp [CLIMATE_MULTIPLIER] at hl
    refine ⟨?_, ?_, ?_⟩
    · rw [← hl]; simp
    · intro v hv
      rw [predict_ok hfind] at hv
      simp at hv
      rw [← hl]
      simp [dictGet]
      rw [← hv]
      try ring
    · simp [climate_scenarios, dictGet, LOCATION_FACTORS, CLIMATE_MULTIPLIER] <;>
        norm_num

theorem c6_scenario_ordering_witness :
    List.map Prod.fst
        [(("Cold" : String), (21000 : ℚ)), ("Mild", 30000), ("Warm", 39000)] =
      ["Cold", "Mild", "Warm"] :=
  (c6_scenario_ordering 1000 "Lynden" "day"
    [("Cold", 21000), ("Mild", 30000), ("Warm", 39000)] (by norm_num) (by decide)
    (by simp [climate_scenarios, dictGet, LOCATION_FACTORS, CLIMATE_MULTIPLIER] <;>
      norm_num)).1

/-- C7: strict monotonicity in herd size — at a fixed catalog location and
recognized horizon, a strictly larger positive herd yields a strictly larger
prediction. -/
theorem c7_monotonic (cowsA cowsB : ℕ) (loc mode : String) (vA vB : ℚ)
    (hmode : validMode mode) (hgt : cowsB < cowsA) (hpos : 0 < cowsB)
    (hA : predict_methane_ft3 cowsA loc mode = Except.ok vA)
    (hB : predict_methane_ft3 cowsB loc mode = Except.ok vB) :
    vB < vA := by
  cases hfind : dictGet LOCATION_FACTORS loc with
  | none => rw [predict_err hfind] at hA; exact absurd hA (by simp)
  | some p =>
    rw [predict_ok hfind] at hA hB
    simp only [Except.ok.injEq] at hA hB
    subst hA; subst hB
    have hrate := location_rate_pos hfind
    have hfac := mode_factor_pos mode
    have hcast : (cowsB : ℚ) < (cowsA : ℚ) := by exact_mod_cast hgt
    exact mul_lt_mul_of_pos_right (mul_lt_mul_of_pos_left hcast hrate) hfac

theorem c7_monotonic_witness : (30000 : ℚ) < 60000 :=
  c7_monotonic 2000 1000 "Lynden" "day" 60000 30000 (by decide) (by norm_num)
    (by norm_num)
    (by simp [predict_methane_ft3, dictGet, LOCATION_FACTORS] <;> norm_num)
    (by simp [predict_methane_ft3, dictGet, LOCATION_FACTORS] <;> norm_num)

/-- C8: at the minimum accepted herd size of 100, the prediction is strictly
positive for every catalog location and recognized horizon. -/
theorem c8_boundary (loc mode : String) (v : ℚ)
    (hmode : validMode mode)
    (hv : predict_methane_ft3 100 loc mode = Except.ok v) : 0 < v := by
  cases hfind : dictGet LOCATION_FACTORS loc with
  | none => rw [predict_err hfind] at hv; exact absurd hv (by simp)
  | some p =>
    rw [predict_ok hfind] at hv
    simp only [Except.ok.injEq] at hv
    subst hv
    have hrate := location_rate_pos hfind
    have hfac := mode_factor_pos mode
    have h100 : (0 : ℚ) < ((100 : ℕ) : ℚ) := by norm_num
    exact mul_pos (mul_pos hrate h100) hfac

theorem c8_boundary_witness : (0 : ℚ) < 2500 :=
  c8_boundary "Pullman" "day" 2500 (by decide)
    (by simp [predict_methane_ft3, dictGet, LOCATION_FACTORS] <;> norm_num)

/-- C9: the predictor is deterministic — it is a pure function of its
arguments and the static tables, so two invocations on identical valid
arguments return identical results. -/
theorem c9_deterministic (cowsA cowsB : ℕ) (locA locB modeA modeB : String)
    (hpos : 0 < cowsA) (hloc : (dictGet LOCATION_FACTORS locA).isSome = true)
    (hmode : validMode modeA)
    (hc : cowsA = cowsB) (hl : locA = locB) (hm : modeA = modeB) :
    predict_methane_ft3 cowsA locA modeA = predict_methane_ft3 cowsB locB modeB := by
  subst hc; subst hl; subst hm; rfl

theorem c9_deterministic_witness :
    predict_methane_ft3 1000 "Lynden" "day" = predict_methane_ft3 1000 "Lynden" "day" :=
  c9_deterministic 1000 1000 "Lynden" "Lynden" "day" "day" (by norm_num)
    (by simp [dictGet, LOCATION_FACTORS]) (by decide) rfl rfl rfl

/-- C10: any mode string other than "day" and "month" — including arbitrary
unrecognized tokens — is silently sent to the year branch by both the
predictor (daily value × 365) and the scenario projector. -/
theorem c10_mode_fallthrough (cows : ℕ) (loc mode : String)
    (hd : mode ≠ "day") (hm : mode ≠ "month") :
    predict_methane_ft3 cows loc mode = predict_methane_ft3 cows loc "year" ∧
    climate_scenarios cows loc mode = climate_scenarios cows loc "year" ∧
    (∀ p : String × ℚ, dictGet LOCATION_FACTORS loc = some p →
      predict_methane_ft3 cows loc mode = Except.ok (p.2 * (cows : ℚ) * 365)) := by
  refine ⟨?_, ?_, ?_⟩
  · cases hfind : dictGet LOCATION_FACTORS loc with
    | none => rw [predict_err hfind, predict_err hfind]
    | some p => rw [predict_ok hfind, predict_ok hfind]; simp [hd, hm]
  · cases hfind : dictGet LOCATION_FACTORS loc with
    | none => rw [scenarios_err hfind, scenarios_err hfind]
    | some p => rw [scenarios_ok hfind, scenarios_ok hfind]; simp [hd, hm]
  · intro p hfind
    rw [predict_ok hfind]
    simp [hd, hm]

theorem c10_mode_fallthrough_witness :
    predict_methane_ft3 200 "Pullman" "hourly" = predict_methane_ft3 200 "Pullman" "year" ∧
    predict_methane_ft3 200 "Pullman" "hourly" = Except.ok (25 * (200 : ℚ) * 365) :=
  ⟨(c10_mode_fallthrough 200 "Pullman" "hourly" (by decide) (by decide)).1,
   (c10_mode_fallthrough 200 "Pullman" "hourly" (by decide) (by decide)).2.2
     ("Cold", 25) (by simp [dictGet, LOCATION_FACTORS])⟩
